import Mathlib

/-!
Shallow embedding of the tornpsql `Connection` statement pipeline
(`src/tornpsql/__init__.py`) and proofs about its specification.

Statements are modelled as `List Char`.  The Python string operations the
source relies on (`str.split`, `str.replace`, `re.search` with an anchored
case-insensitive pattern, `list.insert`) are reimplemented here with the
exact Python semantics: `split` on a non-empty separator, `replace` scanning
left to right without rescanning the emitted replacement text, `insert`
clamping an out-of-range index to the end of the list.

The driver (psycopg2) is external: each public call takes the driver's
response for that round trip (`ExecOutcome`) as an explicit argument, and
the model records the statement strings handed to the driver, the cursor
release flag, and the resulting connection state.
-/

namespace TPSQL

/-- Single-quote character (code 39), used by the timezone directive format
string `set timezone = ...` without writing a quote character literal. -/
def quoteCh : Char := Char.ofNat 39

/-- Does `pat` occur at the head of `s`?  (Analogue of `str.startswith`.) -/
def lcStartsWith : List Char → List Char → Bool
  | [], _ => true
  | _ :: _, [] => false
  | p :: ps, c :: cs => p == c && lcStartsWith ps cs

/-- Lower-case an ASCII letter, as `re.I` matching does for the patterns used
by the source (which only contain ASCII). -/
def lowCh (c : Char) : Char :=
  if ('A' ≤ c ∧ c ≤ 'Z') then Char.ofNat (c.toNat + 32) else c

/-- Case-insensitive anchored match: models `re.search(pat, q, re.I)` for the
source's pattern anchored with a leading caret and containing no other regex
metacharacters. -/
def startsWithCI : List Char → List Char → Bool
  | [], _ => true
  | _ :: _, [] => false
  | p :: ps, c :: cs => (lowCh p == lowCh c) && startsWithCI ps cs

/-- Does `pat` occur anywhere in `s`?  Models `s.find(pat) > -1`. -/
def findSub (pat : List Char) : List Char → Bool
  | [] => lcStartsWith pat []
  | c :: cs => lcStartsWith pat (c :: cs) || findSub pat cs

/-- Worker for `splitOnL`; the fuel is an upper bound on the number of scan
steps (one character is consumed per step, so the input length suffices). -/
def splitGo (sep : List Char) : Nat → List Char → List Char → List (List Char)
  | _, [], acc => [acc.reverse]
  | 0, rest, acc => [acc.reverse ++ rest]
  | fuel + 1, c :: cs, acc =>
    if lcStartsWith sep (c :: cs) then
      acc.reverse :: splitGo sep fuel (cs.drop (sep.length - 1)) []
    else
      splitGo sep fuel cs (c :: acc)

/-- Python `s.split(sep)` for a non-empty separator: leftmost,
non-overlapping cuts. -/
def splitOnL (sep s : List Char) : List (List Char) := splitGo sep s.length s []

/-- Worker for `pyReplace`.  `skip` counts characters of an already matched
occurrence still to be consumed; the replacement text is emitted verbatim and
never rescanned, exactly like Python `str.replace`. -/
def repGo (pat rep : List Char) : Nat → List Char → List Char
  | _, [] => []
  | skip + 1, _ :: cs => repGo pat rep skip cs
  | 0, c :: cs =>
    if lcStartsWith pat (c :: cs) then rep ++ repGo pat rep (pat.length - 1) cs
    else c :: repGo pat rep 0 cs

/-- Python `s.replace(pat, rep)` for a non-empty pattern. -/
def pyReplace (pat rep s : List Char) : List Char := repGo pat rep 0 s

/-- Python `l.insert(i, a)`: an index beyond the end clamps to an append. -/
def pyInsert (i : Nat) (a : α) (l : List α) : List α := l.take i ++ a :: l.drop i

/-- Index of the first element of the list satisfying `p`, counting from `i`;
`none` when there is no such element.  Since the indices are scanned in
ascending order this is the minimum matching index, as the source's
`min(enumerate-filter or [0])` computes. -/
def firstWith (p : List Char → Bool) : List (List Char) → Nat → Option Nat
  | [], _ => none
  | s :: rest, i => if p s then some i else firstWith p rest (i + 1)

/-- The positional-parameter marker token of the driver. -/
def pcTok : List Char := ("%s").data

/-- The update-assignments placeholder token. -/
def dataTok : List Char := ("__data__").data

/-- The insert-columns placeholder token. -/
def keysTok : List Char := ("__keys__").data

/-- The insert-values placeholder token. -/
def valuesTok : List Char := ("__values__").data

/-- The anchored pattern of the source's schema-directive regex. -/
def spTok : List Char := ("set search_path").data

/-- Insertion position for keyword-derived parameters: the minimum index of a
`%s`-split segment of the statement containing `__data__`, defaulting to 0. -/
def parampos (q : List Char) : Nat :=
  (firstWith (fun seg => findSub dataTok seg) (splitOnL pcTok q) 0).getD 0

/-- A server notice or error log event; the source logs operational errors
with the connection's host as context. -/
inductive LogEv
  | connErr (host : List Char)
deriving DecidableEq

/-- Connection state: the session-state fields of the Python object plus the
liveness of the physical session (`_db is not None`) and the log. -/
structure Conn where
  host : List Char
  timezone : Option (List Char)
  search_path : Option (List Char)
  change_path : Option (List Char)
  connected : Bool
  log : List LogEv
deriving DecidableEq

/-- Python truthiness of a nullable string: `None` and the empty string are
falsy. -/
def truthy : Option (List Char) → Bool
  | none => false
  | some s => !s.isEmpty

/-- The rendered timezone directive, from the format string of the source. -/
def tzDir (t : List Char) : List Char :=
  ("set timezone = ").data ++ [quoteCh] ++ t ++ [quoteCh] ++ (";").data

/-- The rendered search-path directive, from the format string of the source. -/
def spDir (p : List Char) : List Char :=
  ("set search_path = ").data ++ p ++ (";").data

/-- Step 1 of `Connection._set_search_path`: the schema-directive branch.
The one-shot override is applied and cleared only when it is truthy and the
statement does not already begin with a schema directive; otherwise the
persistent default is applied under the same regex guard. -/
def spStep (c : Conn) (q : List Char) : List Char × Conn :=
  if truthy c.change_path && !(startsWithCI spTok q) then
    (spDir (c.change_path.getD []) ++ q, { c with change_path := none })
  else if truthy c.search_path && !(startsWithCI spTok q) then
    (spDir (c.search_path.getD []) ++ q, c)
  else (q, c)

/-- `Connection._set_search_path`: schema directive first, then the timezone
directive is prepended in front of everything when the timezone is truthy. -/
def setSearchPath (c : Conn) (q : List Char) : List Char × Conn :=
  if truthy c.timezone then
    (tzDir (c.timezone.getD []) ++ (spStep c q).1, (spStep c q).2)
  else spStep c q

/-- `Connection.path`: sets the one-shot schema override (the source returns
`self` for chaining; the model returns the updated connection). -/
def pathCall (c : Conn) (p : List Char) : Conn := { c with change_path := some p }

/-- Comma-join, as `",".join(xs)`. -/
def joinComma (xs : List (List Char)) : List Char := List.intercalate ((",").data) xs

/-- The keyword-argument rewrite block of `Connection._execute`.  Keyword
arguments are an ordered association list (Python dict insertion order).
Mirrors the source: build keys/values/datas/args, compute the insertion
position from the `%s`-split of the statement, reverse the args and insert
each at that position, then replace the three placeholder tokens. -/
def rewriteKw (q : List Char) (ps : List α) (kw : List (List Char × α)) :
    List Char × List α :=
  if kw.isEmpty then (q, ps) else
    let keys := kw.map (fun kv => kv.1)
    let values := kw.map (fun _ => pcTok)
    let datas := kw.map (fun kv => kv.1 ++ ("=%s").data)
    let args := kw.map (fun kv => kv.2)
    let pos := parampos q
    let ps2 := args.reverse.foldl (fun acc v => pyInsert pos v acc) ps
    let q2 := pyReplace dataTok (joinComma datas) q
    let q3 := pyReplace keysTok (joinComma keys) q2
    let q4 := pyReplace valuesTok (joinComma values) q3
    (q4, ps2)

/-- Statement building as performed inside `Connection._execute`: session
directives are applied first (consuming the one-shot override), then the
keyword rewrite runs on the prefixed statement. -/
def buildStatement (c : Conn) (q : List Char) (ps : List α)
    (kw : List (List Char × α)) : (List Char × List α) × Conn :=
  ((rewriteKw (setSearchPath c q).1 ps kw), (setSearchPath c q).2)

/-- A result row: ordered column-name/value pairs with dict semantics. -/
abbrev Row (α : Type) := List (List Char × α)

/-- Python dict assignment on an ordered association list: an existing key is
updated in place, a new key is appended. -/
def upsert (k : List Char) (v : α) : List (List Char × α) → List (List Char × α)
  | [] => [(k, v)]
  | (k0, v0) :: rest => if k0 = k then (k0, v) :: rest else (k0, v0) :: upsert k v rest

/-- `Row(izip(column_names, row))`: a dict built from the zipped pairs. -/
def mkRow (pairs : List (List Char × α)) : Row α :=
  pairs.foldl (fun acc kv => upsert kv.1 kv.2 acc) []

/-- The row-materialisation step of `Connection.query`: when the cursor
description is truthy, zip the column names with every result tuple into a
`Row`; otherwise the method falls through and returns `None`. -/
def shape (desc : Option (List (List Char))) (rows : List (List α)) :
    Option (List (Row α)) :=
  match desc with
  | none => none
  | some [] => none
  | some cols => some (rows.map (fun r => mkRow (cols.zip r)))

/-- Error taxonomy surfaced by the public methods. -/
inductive PyErr
  | operational
  | sqlError
  | multipleRows
  | typeError
deriving DecidableEq

/-- A concrete value type for closed test inputs (database cell values). -/
inductive Val
  | i (n : Int)
  | s (t : List Char)
deriving DecidableEq

/-- The driver's response to one execute round trip: a completed cursor
(description, fetched rows, rowcount), an operational/transport failure, or
any other database error. -/
inductive ExecOutcome (α : Type)
  | ok (desc : Option (List (List Char))) (rows : List (List α)) (count : Nat)
  | opErr
  | sqlErr
deriving DecidableEq

/-- Result of one public call: the value or error returned to the caller, the
connection state afterwards, whether the cursor obtained for the call has
been closed when the call exits, and the statement strings handed to the
driver (one entry per driver execute call). -/
structure CallRes (α ρ : Type) where
  result : Except PyErr ρ
  conn : Conn
  cursorClosed : Bool
  sent : List (List Char)

/-- `Connection._ensure_connected`: reconnect when the session is gone.  The
reconnect itself (type re-registration and so on) is out of the claims'
scope; what matters here is that it restores a live session. -/
def ensureConnected (c : Conn) : Conn :=
  if c.connected then c else { c with connected := true }

/-- `Connection.query`: obtain a cursor (ensuring a live session), build the
statement, execute it once, and shape the rows.  On an operational failure
the error is logged with the host, the session is closed and the error is
re-raised; the bare `except` closes the cursor on every raising path, and the
normal return path leaves the cursor open (no `finally` in the source). -/
def queryCall (c : Conn) (q : List Char) (ps : List α)
    (kw : List (List Char × α)) (out : ExecOutcome α) :
    CallRes α (Option (List (Row α))) :=
  let c1 := ensureConnected c
  let built := buildStatement c1 q ps kw
  let c2 := built.2
  let stmt := built.1.1
  match out with
  | .ok desc rows _ =>
    { result := .ok (shape desc rows), conn := c2, cursorClosed := false,
      sent := [stmt] }
  | .opErr =>
    { result := .error .operational,
      conn := { c2 with connected := false, log := .connErr c2.host :: c2.log },
      cursorClosed := true, sent := [stmt] }
  | .sqlErr =>
    { result := .error .sqlError, conn := c2, cursorClosed := true,
      sent := [stmt] }

/-- `Connection.execute`, exactly as the source forwards it: positional
parameters only. -/
def executeCall (c : Conn) (q : List Char) (ps : List α) (out : ExecOutcome α) :
    CallRes α (Option (List (Row α))) :=
  queryCall c q ps [] out

/-- Calling `Connection.execute` with keyword arguments: the Python signature
`def execute(self, query, *parameters)` accepts no keyword arguments, so a
call supplying any raises `TypeError` before the body runs (no cursor is ever
obtained and nothing is sent). -/
def executeCallKw (c : Conn) (q : List Char) (ps : List α)
    (kw : List (List Char × α)) (out : ExecOutcome α) :
    CallRes α (Option (List (Row α))) :=
  if kw.isEmpty then queryCall c q ps kw out
  else { result := .error .typeError, conn := c, cursorClosed := true, sent := [] }

/-- The spec's reading of `execute` (modelled from the spec sentence
`execute is an alias for query`): identical to `query` on all arguments,
keyword parameters included. -/
def executeSpecModel (c : Conn) (q : List Char) (ps : List α)
    (kw : List (List Char × α)) (out : ExecOutcome α) :
    CallRes α (Option (List (Row α))) :=
  queryCall c q ps kw out

/-- `Connection.get` result shaping: `None` for a falsy row list, the single
row for exactly one, the multiple-rows error beyond that. -/
def getShape : Except PyErr (Option (List (Row α))) → Except PyErr (Option (Row α))
  | .error e => .error e
  | .ok none => .ok none
  | .ok (some []) => .ok none
  | .ok (some [x]) => .ok (some x)
  | .ok (some (_ :: _ :: _)) => .error .multipleRows

/-- `Connection.get`: runs `query` and shapes its result. -/
def getCall (c : Conn) (q : List Char) (ps : List α)
    (kw : List (List Char × α)) (out : ExecOutcome α) :
    CallRes α (Option (Row α)) :=
  let r := queryCall c q ps kw out
  { result := getShape r.result, conn := r.conn, cursorClosed := r.cursorClosed,
    sent := r.sent }

/-- `Connection.executemany` / `_executemany`: session directives applied
once, a single driver executemany round trip, result rows discarded, `True`
on success.  The keyword rewrite is not available here; the cursor is closed
only on the raising paths. -/
def executemanyCall (c : Conn) (q : List Char) (pss : List (List α))
    (out : ExecOutcome α) : CallRes α Bool :=
  let c1 := ensureConnected c
  let stmt := (setSearchPath c1 q).1
  let c2 := (setSearchPath c1 q).2
  match out with
  | .ok _ _ _ =>
    { result := .ok true, conn := c2, cursorClosed := false, sent := [stmt] }
  | .opErr =>
    { result := .error .operational,
      conn := { c2 with connected := false, log := .connErr c2.host :: c2.log },
      cursorClosed := true, sent := [stmt] }
  | .sqlErr =>
    { result := .error .sqlError, conn := c2, cursorClosed := true,
      sent := [stmt] }

/-- `Connection.execute_rowcount`: like `query` but returns the driver's
rowcount; the source's `finally` closes the cursor on every exit path. -/
def rowcountCall (c : Conn) (q : List Char) (ps : List α)
    (kw : List (List Char × α)) (out : ExecOutcome α) : CallRes α Nat :=
  let c1 := ensureConnected c
  let built := buildStatement c1 q ps kw
  let c2 := built.2
  let stmt := built.1.1
  match out with
  | .ok _ _ n =>
    { result := .ok n, conn := c2, cursorClosed := true, sent := [stmt] }
  | .opErr =>
    { result := .error .operational,
      conn := { c2 with connected := false, log := .connErr c2.host :: c2.log },
      cursorClosed := true, sent := [stmt] }
  | .sqlErr =>
    { result := .error .sqlError, conn := c2, cursorClosed := true,
      sent := [stmt] }

/-- `Connection.mogrify`: hands the raw template straight to the driver's
rendering routine, with no session directives; the session state is not
consulted or consumed, a raising path closes the cursor, a normal return does
not.  The rendered text itself is driver-owned, so the model returns the
template handed over. -/
def mogrifyCall (c : Conn) (q : List Char) (ps : List α) (out : ExecOutcome α) :
    CallRes α (List Char) :=
  let c1 := ensureConnected c
  match out with
  | .ok _ _ _ =>
    { result := .ok q, conn := c1, cursorClosed := false, sent := [q] }
  | .opErr =>
    { result := .error .operational, conn := c1, cursorClosed := true, sent := [q] }
  | .sqlErr =>
    { result := .error .sqlError, conn := c1, cursorClosed := true, sent := [q] }

/-- The statement-prefixing block of `Connection.file` (lines 221-225 of the
source): one-shot override, else persistent default, with no regex guard and
no timezone directive; the one-shot is consumed when applied. -/
def fileBuild (c : Conn) (sql : List Char) : List Char × Conn :=
  if truthy c.change_path then
    (spDir (c.change_path.getD []) ++ sql, { c with change_path := none })
  else if truthy c.search_path then
    (spDir (c.search_path.getD []) ++ sql, c)
  else (sql, c)

/-- `Connection.file` on an already loaded script (the recursive `ir`
inclusion is file I/O, outside the embedding): prefix, then a single execute
round trip; the source never closes this cursor. -/
def fileCall (c : Conn) (sql : List Char) (out : ExecOutcome α) :
    CallRes α Unit :=
  let c1 := ensureConnected c
  let built := fileBuild c1 sql
  match out with
  | .ok _ _ _ =>
    { result := .ok (), conn := built.2, cursorClosed := false, sent := [built.1] }
  | .opErr =>
    { result := .error .operational, conn := built.2, cursorClosed := false,
      sent := [built.1] }
  | .sqlErr =>
    { result := .error .sqlError, conn := built.2, cursorClosed := false,
      sent := [built.1] }

/-- The timezone part of every built statement: the timezone directive when
the timezone is truthy, nothing otherwise. -/
def tzPart (c : Conn) : List Char :=
  if truthy c.timezone then tzDir (c.timezone.getD []) else []

/-! ### Helper lemmas -/

theorem spStep_snd (c : Conn) (q : List Char) :
    (spStep c q).2 = c ∨ (spStep c q).2 = { c with change_path := none } := by
  unfold spStep
  split
  · exact Or.inr rfl
  · split
    · exact Or.inl rfl
    · exact Or.inl rfl

theorem ssp_snd (c : Conn) (q : List Char) :
    (setSearchPath c q).2 = (spStep c q).2 := by
  unfold setSearchPath
  split <;> rfl

theorem ssp_host (c : Conn) (q : List Char) : (setSearchPath c q).2.host = c.host := by
  rw [ssp_snd]
  rcases spStep_snd c q with h | h <;> rw [h]

theorem ssp_log (c : Conn) (q : List Char) : (setSearchPath c q).2.log = c.log := by
  rw [ssp_snd]
  rcases spStep_snd c q with h | h <;> rw [h]

theorem ssp_connected (c : Conn) (q : List Char) :
    (setSearchPath c q).2.connected = c.connected := by
  rw [ssp_snd]
  rcases spStep_snd c q with h | h <;> rw [h]

theorem ssp_fst_decomp (c : Conn) (q : List Char) :
    (setSearchPath c q).1 = tzPart c ++ (spStep c q).1 := by
  unfold setSearchPath tzPart
  split <;> simp

theorem ensure_host (c : Conn) : (ensureConnected c).host = c.host := by
  unfold ensureConnected
  split <;> rfl

theorem ensure_log (c : Conn) : (ensureConnected c).log = c.log := by
  unfold ensureConnected
  split <;> rfl

theorem ensure_timezone (c : Conn) : (ensureConnected c).timezone = c.timezone := by
  unfold ensureConnected
  split <;> rfl

theorem ensure_search (c : Conn) : (ensureConnected c).search_path = c.search_path := by
  unfold ensureConnected
  split <;> rfl

theorem ensure_change (c : Conn) : (ensureConnected c).change_path = c.change_path := by
  unfold ensureConnected
  split <;> rfl

theorem ensure_connected_true (c : Conn) : (ensureConnected c).connected = true := by
  unfold ensureConnected
  split
  · assumption
  · rfl

theorem ssp_full (c : Conn) (q : List Char)
    (htz : truthy c.timezone = true) (hcp : truthy c.change_path = true)
    (hsw : startsWithCI spTok q = false) :
    setSearchPath c q =
      (tzDir (c.timezone.getD []) ++ (spDir (c.change_path.getD []) ++ q),
       { c with change_path := none }) := by
  unfold setSearchPath spStep
  simp [htz, hcp, hsw]

theorem ssp_default (c : Conn) (q : List Char)
    (htz : truthy c.timezone = true) (hcp : truthy c.change_path = false)
    (hsp : truthy c.search_path = true) (hsw : startsWithCI spTok q = false) :
    setSearchPath c q =
      (tzDir (c.timezone.getD []) ++ (spDir (c.search_path.getD []) ++ q), c) := by
  unfold setSearchPath spStep
  simp [htz, hcp, hsp, hsw]

theorem build_snd (c : Conn) (q : List Char) (ps : List α)
    (kw : List (List Char × α)) : (buildStatement c q ps kw).2 = (setSearchPath c q).2 :=
  rfl

theorem query_sent (c : Conn) (q : List Char) (ps : List α)
    (kw : List (List Char × α)) (out : ExecOutcome α) :
    (queryCall c q ps kw out).sent =
      [(rewriteKw (setSearchPath (ensureConnected c) q).1 ps kw).1] := by
  cases out <;> rfl

theorem executemany_sent (c : Conn) (q : List Char) (pss : List (List α))
    (out : ExecOutcome α) :
    (executemanyCall c q pss out).sent = [(setSearchPath (ensureConnected c) q).1] := by
  cases out <;> rfl

theorem file_sent (c : Conn) (sql : List Char) (out : ExecOutcome α) :
    (fileCall c sql out).sent = [(fileBuild (ensureConnected c) sql).1] := by
  cases out <;> rfl

theorem mogrify_sent (c : Conn) (q : List Char) (ps : List α) (out : ExecOutcome α) :
    (mogrifyCall c q ps out).sent = [q] := by
  cases out <;> rfl

theorem rewriteKw_nil (q : List Char) (ps : List α) :
    rewriteKw q ps ([] : List (List Char × α)) = (q, ps) :=
  rfl

/-! ### Claim C5 -/

/-- C5: for every template that does not already begin with a schema-setting
statement, when a schema override (one-shot, or persistent default with no
one-shot) and a persistent timezone are both configured, the built statement
is exactly `set timezone = ...;set search_path = ...;template`, with the
timezone directive physically first. -/
theorem timezone_precedes_search_path (c : Conn) (q : List Char)
    (htz : truthy c.timezone = true) (hsw : startsWithCI spTok q = false) :
    (truthy c.change_path = true →
      (setSearchPath c q).1 =
        tzDir (c.timezone.getD []) ++ (spDir (c.change_path.getD []) ++ q)) ∧
    (truthy c.change_path = false → truthy c.search_path = true →
      (setSearchPath c q).1 =
        tzDir (c.timezone.getD []) ++ (spDir (c.search_path.getD []) ++ q)) := by
  constructor
  · intro hcp
    rw [ssp_full c q htz hcp hsw]
  · intro hcp hsp
    rw [ssp_default c q htz hcp hsp hsw]

/-- Witness for C5: both branches evaluated at a concrete connection state
and template. -/
theorem timezone_precedes_search_path_w :
    (truthy (some (("+00").data)) = true ∧
     startsWithCI spTok (("select 1").data) = false ∧
     truthy (some (("tmp").data)) = true) ∧
    ((setSearchPath
        { host := [], timezone := some (("+00").data),
          search_path := some (("public").data),
          change_path := some (("tmp").data), connected := true, log := [] }
        (("select 1").data)).1 =
      tzDir (("+00").data) ++ (spDir (("tmp").data) ++ (("select 1").data))) := by
  refine ⟨by decide, ?_⟩
  exact (timezone_precedes_search_path
    { host := [], timezone := some (("+00").data),
      search_path := some (("public").data),
      change_path := some (("tmp").data), connected := true, log := [] }
    (("select 1").data) (by decide) (by decide)).1 (by decide)

/-! ### Claim C2 -/

/-- C2 counterexample: an empty-string one-shot override (set via `path`) is
not cleared by the next statement build, contradicting the claim that the
one-shot is cleared by that build regardless of application, even if it is
the empty string; moreover the persistent default is applied instead, so the
present one-shot did not take precedence. -/
theorem empty_one_shot_not_cleared_cex :
    ((setSearchPath
        (pathCall { host := [], timezone := none,
                    search_path := some (("public").data), change_path := none,
                    connected := true, log := [] } [])
        (("select 1").data)).2.change_path = some []) ∧
    ((setSearchPath
        (pathCall { host := [], timezone := none,
                    search_path := some (("public").data), change_path := none,
                    connected := true, log := [] } [])
        (("select 1").data)).1 = spDir (("public").data) ++ (("select 1").data)) ∧
    some ([] : List Char) ≠ none := by
  refine ⟨by decide, by decide, by simp⟩

/-- C2 amended: the one-shot override is consulted on the next build and is
applied, taking precedence over the persistent default, exactly when it is
truthy (non-null, non-empty) and the statement does not already begin with a
schema directive; it is cleared exactly in that case.  A falsy one-shot is
left unchanged and the build falls back to the persistent default; a
statement already beginning with `set search_path` leaves the one-shot in
place for a later build and receives no schema directive. -/
theorem one_shot_consumption (c : Conn) (q : List Char) :
    ((truthy c.change_path = true ∧ startsWithCI spTok q = false) →
      (setSearchPath c q).2.change_path = none ∧
      (setSearchPath c q).1 = tzPart c ++ (spDir (c.change_path.getD []) ++ q)) ∧
    (truthy c.change_path = false →
      (setSearchPath c q).2.change_path = c.change_path ∧
      ((truthy c.search_path = true ∧ startsWithCI spTok q = false) →
        (setSearchPath c q).1 = tzPart c ++ (spDir (c.search_path.getD []) ++ q))) ∧
    (startsWithCI spTok q = true →
      (setSearchPath c q).2.change_path = c.change_path ∧
      (setSearchPath c q).1 = tzPart c ++ q) := by
  refine ⟨fun h => ?_, fun h => ?_, fun h => ?_⟩
  · have hs : spStep c q =
        (spDir (c.change_path.getD []) ++ q, { c with change_path := none }) := by
      unfold spStep
      simp [h.1, h.2]
    constructor
    · rw [ssp_snd, hs]
    · rw [ssp_fst_decomp, hs]
  · constructor
    · rw [ssp_snd]
      unfold spStep
      split
      · next hcond => simp [h] at hcond
      · split <;> rfl
    · intro h2
      have hs : spStep c q = (spDir (c.search_path.getD []) ++ q, c) := by
        unfold spStep
        simp [h, h2.1, h2.2]
      rw [ssp_fst_decomp, hs]
  · have hs : spStep c q = (q, c) := by
      unfold spStep
      simp [h]
    constructor
    · rw [ssp_snd, hs]
    · rw [ssp_fst_decomp, hs]

/-- Witness for C2 amended: every branch instantiated at concrete states. -/
theorem one_shot_consumption_w :
    ((truthy (some (("tmp").data)) = true ∧
      startsWithCI spTok (("select 1").data) = false) ∧
     ((setSearchPath
        { host := [], timezone := none, search_path := some (("public").data),
          change_path := some (("tmp").data), connected := true, log := [] }
        (("select 1").data)).2.change_path = none ∧
      (setSearchPath
        { host := [], timezone := none, search_path := some (("public").data),
          change_path := some (("tmp").data), connected := true, log := [] }
        (("select 1").data)).1 =
        tzPart { host := [], timezone := none,
                 search_path := some (("public").data),
                 change_path := some (("tmp").data), connected := true, log := [] } ++
          (spDir (("tmp").data) ++ (("select 1").data)))) ∧
    ((setSearchPath
        { host := [], timezone := none, search_path := some (("public").data),
          change_path := none, connected := true, log := [] }
        (("SET SEARCH_PATH = a; select 1").data)).2.change_path = none ∧
     (setSearchPath
        { host := [], timezone := none, search_path := some (("public").data),
          change_path := none, connected := true, log := [] }
        (("SET SEARCH_PATH = a; select 1").data)).1 =
        tzPart { host := [], timezone := none,
                 search_path := some (("public").data), change_path := none,
                 connected := true, log := [] } ++
          (("SET SEARCH_PATH = a; select 1").data)) := by
  refine ⟨⟨by decide, ?_⟩, ?_⟩
  · exact (one_shot_consumption
      { host := [], timezone := none, search_path := some (("public").data),
        change_path := some (("tmp").data), connected := true, log := [] }
      (("select 1").data)).1 ⟨by decide, by decide⟩
  · exact (one_shot_consumption
      { host := [], timezone := none, search_path := some (("public").data),
        change_path := none, connected := true, log := [] }
      (("SET SEARCH_PATH = a; select 1").data)).2.2 (by decide)

/-! ### Claim C1 -/

/-- C1 counterexample: `mogrify` hands the raw template to the driver with no
session-state directives at all, so at a state with a configured timezone the
statement it builds is not the prefixed statement the claim requires. -/
theorem mogrify_sends_unprefixed_cex :
    (mogrifyCall
        { host := ("h").data, timezone := some (("+00").data),
          search_path := some (("public").data), change_path := none,
          connected := true, log := [] }
        (("select 1").data) ([] : List Nat) (ExecOutcome.ok none [] 0)).sent ≠
      [(setSearchPath
          { host := ("h").data, timezone := some (("+00").data),
            search_path := some (("public").data), change_path := none,
            connected := true, log := [] }
          (("select 1").data)).1] := by
  decide

/-- C1 amended: the session directives are concatenated into the one
statement string sent in a single driver call for `query`/`execute` (also
under the keyword rewrite, which runs on the already prefixed string) and for
`executemany`; `file`-based execution concatenates only the search-path
directive (never the timezone) into its single statement; `mogrify` applies
no session-state directives and hands over the raw template. -/
theorem session_directives_per_entry_point (α : Type) (c : Conn) (q : List Char)
    (ps : List α) (kw : List (List Char × α)) (pss : List (List α))
    (sql : List Char) (out : ExecOutcome α)
    (htz : truthy c.timezone = true) (hcp : truthy c.change_path = true)
    (hsw : startsWithCI spTok q = false) :
    ((queryCall c q ps [] out).sent =
      [tzDir (c.timezone.getD []) ++ (spDir (c.change_path.getD []) ++ q)]) ∧
    ((queryCall c q ps kw out).sent =
      [(rewriteKw
          (tzDir (c.timezone.getD []) ++ (spDir (c.change_path.getD []) ++ q))
          ps kw).1]) ∧
    ((executemanyCall c q pss out).sent =
      [tzDir (c.timezone.getD []) ++ (spDir (c.change_path.getD []) ++ q)]) ∧
    ((fileCall c sql out : CallRes α Unit).sent =
      [spDir (c.change_path.getD []) ++ sql]) ∧
    ((mogrifyCall c q ps out).sent = [q]) := by
  have htz1 : truthy (ensureConnected c).timezone = true := by
    rw [ensure_timezone]; exact htz
  have hcp1 : truthy (ensureConnected c).change_path = true := by
    rw [ensure_change]; exact hcp
  have hfull := ssp_full (ensureConnected c) q htz1 hcp1 hsw
  rw [ensure_timezone, ensure_change] at hfull
  refine ⟨?_, ?_, ?_, ?_, mogrify_sent c q ps out⟩
  · rw [query_sent, hfull, rewriteKw_nil]
  · rw [query_sent, hfull]
  · rw [executemany_sent, hfull]
  · rw [file_sent]
    have hf : fileBuild (ensureConnected c) sql =
        (spDir (c.change_path.getD []) ++ sql,
         { ensureConnected c with change_path := none }) := by
      unfold fileBuild
      rw [ensure_change]
      simp [hcp]
    rw [hf]

/-- Witness for C1 amended, at a concrete state with a timezone and a
one-shot schema override. -/
theorem session_directives_per_entry_point_w :
    (truthy (some (("+00").data)) = true ∧
     truthy (some (("tmp").data)) = true ∧
     startsWithCI spTok (("select 1").data) = false) ∧
    ((executemanyCall
        { host := [], timezone := some (("+00").data), search_path := none,
          change_path := some (("tmp").data), connected := true, log := [] }
        (("select 1").data) ([] : List (List Nat)) (ExecOutcome.ok none [] 0)).sent =
      [tzDir (("+00").data) ++ (spDir (("tmp").data) ++ (("select 1").data))]) ∧
    ((fileCall
        { host := [], timezone := some (("+00").data), search_path := none,
          change_path := some (("tmp").data), connected := true, log := [] }
        (("select 2").data) (ExecOutcome.ok none ([] : List (List Nat)) 0)).sent =
      [spDir (("tmp").data) ++ (("select 2").data)]) := by
  refine ⟨by decide, ?_, ?_⟩
  · exact (session_directives_per_entry_point Nat
      { host := [], timezone := some (("+00").data), search_path := none,
        change_path := some (("tmp").data), connected := true, log := [] }
      (("select 1").data) [] [] [] (("select 2").data)
      (ExecOutcome.ok none [] 0) (by decide) (by decide) (by decide)).2.2.1
  · exact (session_directives_per_entry_point Nat
      { host := [], timezone := some (("+00").data), search_path := none,
        change_path := some (("tmp").data), connected := true, log := [] }
      (("select 1").data) [] [] [] (("select 2").data)
      (ExecOutcome.ok none [] 0) (by decide) (by decide) (by decide)).2.2.2.1

/-! ### List lemmas for the keyword rewrite -/

theorem takeApp {α : Type} : ∀ (n : Nat) (l1 l2 : List α), n ≤ l1.length →
    (l1 ++ l2).take n = l1.take n := by
  intro n l1
  induction l1 generalizing n with
  | nil =>
    intro l2 h
    have : n = 0 := Nat.le_zero.mp h
    subst this
    rfl
  | cons a t ih =>
    intro l2 h
    cases n with
    | zero => rfl
    | succ m =>
      simp only [List.cons_append, List.take_succ_cons]
      rw [ih m l2 (by simpa using h)]

theorem dropApp {α : Type} : ∀ (n : Nat) (l1 l2 : List α), n ≤ l1.length →
    (l1 ++ l2).drop n = l1.drop n ++ l2 := by
  intro n l1
  induction l1 generalizing n with
  | nil =>
    intro l2 h
    have : n = 0 := Nat.le_zero.mp h
    subst this
    rfl
  | cons a t ih =>
    intro l2 h
    cases n with
    | zero => rfl
    | succ m =>
      simp only [List.cons_append, List.drop_succ_cons]
      exact ih m l2 (by simpa using h)

theorem pyInsert_at {α : Type} (pos : Nat) (v : α) (ps rest : List α)
    (h : pos ≤ ps.length) :
    pyInsert pos v (ps.take pos ++ rest) = ps.take pos ++ (v :: rest) := by
  have hlen : (ps.take pos).length = pos := by
    rw [List.length_take]
    omega
  have h1 : (ps.take pos ++ rest).take pos = ps.take pos := by
    rw [takeApp pos (ps.take pos) rest (le_of_eq hlen.symm)]
    rw [List.take_take, Nat.min_self]
  have h2 : (ps.take pos ++ rest).drop pos = rest := by
    rw [dropApp pos (ps.take pos) rest (le_of_eq hlen.symm)]
    have : (ps.take pos).drop pos = [] := by
      apply List.drop_eq_nil_of_le
      rw [hlen]
    rw [this]
    rfl
  unfold pyInsert
  rw [h1, h2]

theorem foldl_rev_insert {α : Type} (args ps : List α) (pos : Nat)
    (h : pos ≤ ps.length) :
    args.reverse.foldl (fun acc v => pyInsert pos v acc) ps =
      ps.take pos ++ (args ++ ps.drop pos) := by
  rw [List.foldl_reverse]
  induction args with
  | nil => simp
  | cons v t ih =>
    simp only [List.foldr_cons]
    rw [ih, pyInsert_at pos v ps (t ++ ps.drop pos) h]
    rfl

theorem foldl_insert_length {α : Type} :
    ∀ (l ps : List α) (pos : Nat),
      (l.foldl (fun acc v => pyInsert pos v acc) ps).length = ps.length + l.length := by
  intro l
  induction l with
  | nil => intro ps pos; simp
  | cons v t ih =>
    intro ps pos
    simp only [List.foldl_cons]
    rw [ih]
    have hv : (pyInsert pos v ps).length = ps.length + 1 := by
      unfold pyInsert
      simp only [List.length_append, List.length_cons, List.length_take,
        List.length_drop]
      omega
    rw [hv]
    simp only [List.length_cons]
    omega

theorem isEmpty_false_of_ne_nil {α : Type} (l : List α) (h : l ≠ []) :
    l.isEmpty = false := by
  cases l with
  | nil => exact absurd rfl h
  | cons a t => rfl

/-! ### Claim C3 -/

/-- C3 counterexample: with the keyword argument named `__data__` — a legal
Python keyword — the rewrite leaves `__data__` tokens in the returned
template, because Python `str.replace` never rescans the replacement text it
splices in.  The claim's token-elimination clause is therefore false. -/
theorem kwargs_rewrite_token_residue_cex :
    findSub dataTok
      ((rewriteKw (("x __data__ __keys__ __values__").data) ([] : List Nat)
          [(dataTok, 0)]).1) = true := by
  decide

/-- C3 amended: for every non-empty keyword-argument set and every template
containing the `__keys__`, `__values__` and `__data__` tokens, the rewrite
returns a positional-parameter sequence whose length is the original
positional count plus the number of keyword arguments; the returned template
is however not in general free of the three tokens, since replacement text
built from the caller's key names is spliced in without rescanning and can
itself contain or recreate them. -/
theorem kwargs_rewrite_param_count (α : Type) (q : List Char) (ps : List α)
    (kw : List (List Char × α)) (hne : kw ≠ [])
    (hd : findSub dataTok q = true) (hk : findSub keysTok q = true)
    (hv : findSub valuesTok q = true) :
    ((rewriteKw q ps kw).2).length = ps.length + kw.length := by
  unfold rewriteKw
  rw [if_neg (by rw [isEmpty_false_of_ne_nil kw hne]; exact Bool.false_ne_true)]
  dsimp only
  rw [foldl_insert_length]
  simp

/-- Witness for C3 amended at a one-keyword concrete input. -/
theorem kwargs_rewrite_param_count_w :
    ([((("a").data), (1 : Nat))] ≠ [] ∧
     findSub dataTok (("__data__ __keys__ __values__").data) = true ∧
     findSub keysTok (("__data__ __keys__ __values__").data) = true ∧
     findSub valuesTok (("__data__ __keys__ __values__").data) = true) ∧
    ((rewriteKw (("__data__ __keys__ __values__").data) ([] : List Nat)
        [((("a").data), 1)]).2).length =
      ([] : List Nat).length + [((("a").data), (1 : Nat))].length := by
  refine ⟨⟨by decide, by decide, by decide, by decide⟩, ?_⟩
  exact kwargs_rewrite_param_count Nat (("__data__ __keys__ __values__").data)
    [] [((("a").data), 1)] (by decide) (by decide) (by decide) (by decide)

/-! ### Claim C4 -/

/-- C4 counterexample: when the `__data__` segment index exceeds the number
of existing positional parameters, Python `list.insert` clamps every insert
to the end of the list, so the keyword-derived values end up in reversed
order, not the claimed original left-to-right order. -/
theorem kwargs_insert_clamp_reverses_cex :
    ((rewriteKw (("a %s b %s c __data__").data) ([] : List Nat)
        [((("k1").data), 1), ((("k2").data), 2)]).2 ≠ [1, 2]) ∧
    ((rewriteKw (("a %s b %s c __data__").data) ([] : List Nat)
        [((("k1").data), 1), ((("k2").data), 2)]).2 = [2, 1]) := by
  refine ⟨by decide, by decide⟩

/-- C4 amended: the keyword-derived values are inserted at the index of the
earliest parameter-marker-split segment containing `__data__` (default 0);
whenever that index does not exceed the number of existing positional
parameters, the reverse-then-insert step leaves them there in the caller's
original left-to-right keyword order, and the end-to-end INSERT example
produces exactly the claimed statement and parameters; when the index
exceeds the positional-parameter count the inserts clamp to the end of the
list and the values appear in reversed order instead. -/
theorem kwargs_insert_position_order :
    (∀ (α : Type) (q : List Char) (ps : List α) (kw : List (List Char × α)),
      kw ≠ [] → parampos q ≤ ps.length →
      (rewriteKw q ps kw).2 =
        ps.take (parampos q) ++ (kw.map (fun kv => kv.2) ++ ps.drop (parampos q))) ∧
    (buildStatement
        { host := [], timezone := none, search_path := none, change_path := none,
          connected := true, log := [] }
        (("INSERT INTO t (__keys__) VALUES (__values__)").data) ([] : List Val)
        [((("id").data), Val.i 1), ((("name").data), Val.s (("a").data))] =
      ((("INSERT INTO t (id,name) VALUES (%s,%s)").data,
        [Val.i 1, Val.s (("a").data)]),
       { host := [], timezone := none, search_path := none, change_path := none,
         connected := true, log := [] })) := by
  constructor
  · intro α q ps kw hne hpos
    unfold rewriteKw
    rw [if_neg (by rw [isEmpty_false_of_ne_nil kw hne]; exact Bool.false_ne_true)]
    dsimp only
    rw [foldl_rev_insert (kw.map (fun kv => kv.2)) ps (parampos q) hpos]
  · decide

/-- Witness for C4 amended: an UPDATE-shaped template whose `__data__`
segment index is 0 with one positional parameter present; the keyword values
land at the front in declaration order. -/
theorem kwargs_insert_position_order_w :
    ([((("a").data), (1 : Nat)), ((("b").data), 2)] ≠ [] ∧
     parampos (("UPDATE t SET __data__ WHERE x = %s").data) ≤ [(9 : Nat)].length) ∧
    (rewriteKw (("UPDATE t SET __data__ WHERE x = %s").data) [(9 : Nat)]
        [((("a").data), 1), ((("b").data), 2)]).2 = [1, 2, 9] := by
  refine ⟨⟨by decide, by decide⟩, ?_⟩
  exact kwargs_insert_position_order.1 Nat
    (("UPDATE t SET __data__ WHERE x = %s").data) [9]
    [((("a").data), 1), ((("b").data), 2)] (by decide) (by decide)

/-! ### Claim C6 -/

/-- C6: `get` returns `None` when `query` yielded zero rows, the single row
when it yielded exactly one, and the multiple-rows error for two or more;
stated over the driver outcome (a truthy description, and zero, one or at
least two result tuples, which `query` maps one-to-one into rows). -/
theorem get_row_multiplicity (α : Type) (c : Conn) (q : List Char) (ps : List α)
    (kw : List (List Char × α)) (cols : List (List Char)) (t1 t2 : List α)
    (ts : List (List α)) (n : Nat) (h : cols ≠ []) :
    ((getCall c q ps kw (ExecOutcome.ok (some cols) [] n)).result =
      Except.ok none) ∧
    ((getCall c q ps kw (ExecOutcome.ok (some cols) [t1] n)).result =
      Except.ok (some (mkRow (cols.zip t1)))) ∧
    ((getCall c q ps kw (ExecOutcome.ok (some cols) (t1 :: t2 :: ts) n)).result =
      Except.error PyErr.multipleRows) := by
  obtain ⟨c0, cs, rfl⟩ := List.exists_cons_of_ne_nil h
  exact ⟨rfl, rfl, rfl⟩

/-- Witness for C6 at literal 0-, 1- and 2-row fixtures. -/
theorem get_row_multiplicity_w :
    (([("id").data] : List (List Char)) ≠ [] ∧
     ((getCall { host := [], timezone := none, search_path := none,
                 change_path := none, connected := true, log := [] }
         (("select x").data) ([] : List Nat) []
         (ExecOutcome.ok (some [("id").data]) [] 0)).result = Except.ok none) ∧
     ((getCall { host := [], timezone := none, search_path := none,
                 change_path := none, connected := true, log := [] }
         (("select x").data) ([] : List Nat) []
         (ExecOutcome.ok (some [("id").data]) [[5]] 0)).result =
       Except.ok (some (mkRow ([("id").data].zip [5])))) ∧
     ((getCall { host := [], timezone := none, search_path := none,
                 change_path := none, connected := true, log := [] }
         (("select x").data) ([] : List Nat) []
         (ExecOutcome.ok (some [("id").data]) [[5], [6]] 0)).result =
       Except.error PyErr.multipleRows)) := by
  refine ⟨by decide, ?_⟩
  exact get_row_multiplicity Nat
    { host := [], timezone := none, search_path := none, change_path := none,
      connected := true, log := [] }
    (("select x").data) [] [] [("id").data] [5] [6] [] 0 (by decide)

/-! ### Claim C7 -/

/-- C7: when the driver reports a (truthy) result-set description, `query`
returns the rows obtained by zipping the column names with each result tuple
into a `Row`; with no description it returns `None`, which is distinct from
an empty row sequence. -/
theorem query_rows_shape (α : Type) (c : Conn) (q : List Char) (ps : List α)
    (kw : List (List Char × α)) (cols : List (List Char))
    (rows : List (List α)) (n : Nat) (h : cols ≠ []) :
    ((queryCall c q ps kw (ExecOutcome.ok (some cols) rows n)).result =
      Except.ok (some (rows.map (fun r => mkRow (cols.zip r))))) ∧
    ((queryCall c q ps kw (ExecOutcome.ok none rows n)).result =
      Except.ok none) ∧
    ((Except.ok none : Except PyErr (Option (List (Row α)))) ≠
      Except.ok (some ([] : List (Row α)))) := by
  obtain ⟨c0, cs, rfl⟩ := List.exists_cons_of_ne_nil h
  exact ⟨rfl, rfl, by simp⟩

/-- Witness for C7 at a concrete two-column description. -/
theorem query_rows_shape_w :
    (([("id").data, ("nm").data] : List (List Char)) ≠ [] ∧
     ((queryCall { host := [], timezone := none, search_path := none,
                   change_path := none, connected := true, log := [] }
         (("select x").data) ([] : List Nat) []
         (ExecOutcome.ok (some [("id").data, ("nm").data]) [[1, 2]] 0)).result =
       Except.ok (some ([[1, 2]].map (fun r =>
         mkRow ([("id").data, ("nm").data].zip r)))) ) ∧
     ((queryCall { host := [], timezone := none, search_path := none,
                   change_path := none, connected := true, log := [] }
         (("select x").data) ([] : List Nat) []
         (ExecOutcome.ok none [[1, 2]] 0)).result = Except.ok none) ∧
     ((Except.ok none : Except PyErr (Option (List (Row Nat)))) ≠
       Except.ok (some ([] : List (Row Nat))))) := by
  refine ⟨by decide, ?_⟩
  exact query_rows_shape Nat
    { host := [], timezone := none, search_path := none, change_path := none,
      connected := true, log := [] }
    (("select x").data) [] [] [("id").data, ("nm").data] [[1, 2]] 0 (by decide)

/-! ### Claim C8 -/

/-- C8: an operational failure during statement execution is logged with the
host as context, closes the physical session (the connection is left
disconnected), and the error is re-raised to the caller; the next call on the
returned connection then succeeds against a recovered driver and ends with a
live session again, through the ensure-connected step alone (no explicit
reconnect call appears anywhere in the composition). -/
theorem operational_failure_teardown_reconnect (α : Type) (c : Conn)
    (q : List Char) (ps : List α) (kw : List (List Char × α)) (q2 : List Char)
    (ps2 : List α) (kw2 : List (List Char × α))
    (desc : Option (List (List Char))) (rows : List (List α)) (n : Nat) :
    ((queryCall c q ps kw ExecOutcome.opErr).result =
      Except.error PyErr.operational) ∧
    ((queryCall c q ps kw ExecOutcome.opErr).conn.connected = false) ∧
    ((queryCall c q ps kw ExecOutcome.opErr).conn.log =
      LogEv.connErr c.host :: c.log) ∧
    ((queryCall ((queryCall c q ps kw ExecOutcome.opErr).conn) q2 ps2 kw2
        (ExecOutcome.ok desc rows n)).result = Except.ok (shape desc rows)) ∧
    ((queryCall ((queryCall c q ps kw ExecOutcome.opErr).conn) q2 ps2 kw2
        (ExecOutcome.ok desc rows n)).conn.connected = true) := by
  refine ⟨rfl, rfl, ?_, rfl, ?_⟩
  · show LogEv.connErr (setSearchPath (ensureConnected c) q).2.host ::
        (setSearchPath (ensureConnected c) q).2.log =
      LogEv.connErr c.host :: c.log
    rw [ssp_host, ensure_host, ssp_log, ensure_log]
  · show (setSearchPath
        (ensureConnected ((queryCall c q ps kw ExecOutcome.opErr).conn)) q2).2.connected =
      true
    rw [ssp_connected, ensure_connected_true]

/-! ### Claim C9 -/

/-- C9 counterexample: on a successful execution `query` returns without
closing its cursor (the source closes it only in the bare `except` branch;
there is no `finally`), so the cursor is not released on every exit path. -/
theorem query_leaks_cursor_on_success_cex :
    (queryCall { host := [], timezone := none, search_path := none,
                 change_path := none, connected := true, log := [] }
        (("select 1").data) ([] : List Nat) []
        (ExecOutcome.ok (some [("id").data]) [[1]] 1)).cursorClosed = false := by
  rfl

/-- C9 amended: the cursor is closed on every exit path of
`execute_rowcount` (whose source uses `finally`), and on the raising exit
paths of `query`/`execute`, `get`, `executemany` and `mogrify` that come from
the driver execution raising (operational or other database errors); on
normal returns, `query`/`execute`, `get`, `executemany` and `mogrify` leave
their cursor open, and `get`'s own multiple-rows error — raised only after
`query` has already returned normally — likewise leaves the cursor open. -/
theorem cursor_close_paths (α : Type) (c : Conn) (q : List Char) (ps : List α)
    (kw : List (List Char × α)) (pss : List (List α))
    (desc : Option (List (List Char))) (rows : List (List α))
    (c0 : List Char) (cols : List (List Char)) (t1 t2 : List α)
    (ts : List (List α)) (n : Nat) :
    ((queryCall c q ps kw ExecOutcome.opErr).cursorClosed = true) ∧
    ((queryCall c q ps kw ExecOutcome.sqlErr).cursorClosed = true) ∧
    ((queryCall c q ps kw (ExecOutcome.ok desc rows n)).cursorClosed = false) ∧
    ((executeCall c q ps ExecOutcome.opErr).cursorClosed = true) ∧
    ((executeCall c q ps (ExecOutcome.ok desc rows n)).cursorClosed = false) ∧
    ((getCall c q ps kw ExecOutcome.opErr).cursorClosed = true) ∧
    ((getCall c q ps kw ExecOutcome.sqlErr).cursorClosed = true) ∧
    ((getCall c q ps kw (ExecOutcome.ok desc rows n)).cursorClosed = false) ∧
    ((getCall c q ps kw
        (ExecOutcome.ok (some (c0 :: cols)) (t1 :: t2 :: ts) n)).result =
      Except.error PyErr.multipleRows) ∧
    ((getCall c q ps kw
        (ExecOutcome.ok (some (c0 :: cols)) (t1 :: t2 :: ts) n)).cursorClosed =
      false) ∧
    ((executemanyCall c q pss ExecOutcome.opErr).cursorClosed = true) ∧
    ((executemanyCall c q pss ExecOutcome.sqlErr).cursorClosed = true) ∧
    ((executemanyCall c q pss (ExecOutcome.ok desc rows n)).cursorClosed = false) ∧
    ((mogrifyCall c q ps ExecOutcome.opErr).cursorClosed = true) ∧
    ((mogrifyCall c q ps (ExecOutcome.ok desc rows n)).cursorClosed = false) ∧
    (∀ out : ExecOutcome α, (rowcountCall c q ps kw out).cursorClosed = true) := by
  refine ⟨rfl, rfl, rfl, rfl, rfl, rfl, rfl, rfl, rfl, rfl, rfl, rfl, rfl, rfl,
    rfl, fun out => ?_⟩
  cases out <;> rfl

/-! ### Claim C10 -/

/-- C10 counterexample: calling `execute` with a keyword-parameter set fails
with `TypeError` (its Python signature takes positional parameters only),
while `query` with the same arguments succeeds, so the two do not produce the
same result for every keyword-parameter set. -/
theorem execute_rejects_kwargs_cex :
    ((executeCallKw { host := [], timezone := none, search_path := none,
                      change_path := none, connected := true, log := [] }
        (("UPDATE t SET __data__").data) ([] : List Nat) [((("a").data), 1)]
        (ExecOutcome.ok none [] 0)).result = Except.error PyErr.typeError) ∧
    ((queryCall { host := [], timezone := none, search_path := none,
                  change_path := none, connected := true, log := [] }
        (("UPDATE t SET __data__").data) ([] : List Nat) [((("a").data), 1)]
        (ExecOutcome.ok none [] 0)).result = Except.ok none) ∧
    ((Except.error PyErr.typeError : Except PyErr (Option (List (Row Nat)))) ≠
      Except.ok none) := by
  exact ⟨rfl, rfl, by simp⟩

/-- C10 amended: `execute` is an alias for `query` restricted to positional
parameters — on an empty keyword set it coincides with `query` (and with the
spec-modelled alias) on the result, state changes, cursor handling and sent
statements alike; a non-empty keyword set makes `execute` fail with
`TypeError` before anything runs, while the spec-modelled alias behaves as
`query`. -/
theorem execute_alias_positional (α : Type) (c : Conn) (q : List Char)
    (ps : List α) (kw : List (List Char × α)) (out : ExecOutcome α) :
    (executeCall c q ps out = queryCall c q ps [] out) ∧
    (executeCallKw c q ps [] out = executeSpecModel c q ps [] out) ∧
    (kw ≠ [] → executeCallKw c q ps kw out =
      { result := Except.error PyErr.typeError, conn := c, cursorClosed := true,
        sent := [] }) ∧
    (executeSpecModel c q ps kw out = queryCall c q ps kw out) := by
  refine ⟨rfl, rfl, fun h => ?_, rfl⟩
  unfold executeCallKw
  rw [if_neg (by rw [isEmpty_false_of_ne_nil kw h]; exact Bool.false_ne_true)]

/-- Witness for C10 amended, discharging the non-empty keyword hypothesis at
a concrete call. -/
theorem execute_alias_positional_w :
    ([((("a").data), (1 : Nat))] ≠ [] ∧
     executeCallKw { host := [], timezone := none, search_path := none,
                     change_path := none, connected := true, log := [] }
        (("select 1").data) ([] : List Nat) [((("a").data), 1)]
        (ExecOutcome.ok none [] 0) =
      { result := Except.error PyErr.typeError,
        conn := { host := [], timezone := none, search_path := none,
                  change_path := none, connected := true, log := [] },
        cursorClosed := true, sent := [] }) := by
  refine ⟨by decide, ?_⟩
  exact (execute_alias_positional Nat
    { host := [], timezone := none, search_path := none, change_path := none,
      connected := true, log := [] }
    (("select 1").data) [] [((("a").data), 1)]
    (ExecOutcome.ok none [] 0)).2.2.1 (by decide)

end TPSQL
